import Mathlib

set_option maxHeartbeats 1000000

/- Shallow embedding of the jaedonpaget/Urban-Computing logger scripts
(src/gps_logger.py and src/live_gps_logger.py; the acquisition loop, the
reuse-or-gap continuity policy, the pacing tail, the provider gateway, the
bikes snapshot poller and the nearest-station resolver are identical between
the two files up to the extra streaming calls of the live variant).
Wall-clock times and timeouts (seconds) are modelled as rationals,
epoch-millisecond timestamps as integers and geographic coordinates as
reals.  External effects (the termux-location subprocess, JSON decoding,
the HTTP station fetch) enter as explicit inputs of the functions that the
scripts drive with them. -/

/-- A decoded termux-location JSON object as consumed by `get_network_once`
and `get_last`.  Optional fields model JSON keys that may be absent;
`provider_used` and `source` model the `_provider_used` / `_source` keys
that the two getters write into the dict before returning it. -/
structure Loc where
  latitude : Option ℝ
  longitude : Option ℝ
  accuracy : Option ℝ
  speed : Option ℝ
  bearing : Option ℝ
  altitude : Option ℝ
  time : Option ℤ
  provider : Option String
  provider_used : Option String
  source : Option String

/-- One CSV row built by `to_row` (gps_logger.py lines 63-80).  The
`timestamp_iso` column is a pure re-formatting of `timestamp_ms` and is not
modelled separately. -/
structure Row where
  session_id : String
  timestamp_ms : ℤ
  latitude : Option ℝ
  longitude : Option ℝ
  accuracy_m : Option ℝ
  speed_mps : Option ℝ
  bearing_deg : Option ℝ
  altitude_m : Option ℝ
  provider : String
  raw_provider : String
  source : String
  reused : ℤ

/-- gps_logger.py `to_row`: `now_ms` is the value of `time.time()*1000` at
the moment of the call, used only when the location dict has no "time" key
(`ts_ms = int(loc.get("time", time.time()*1000))`). -/
def to_row (session : String) (now_ms : ℤ) (loc : Loc) (reused : Bool) : Row :=
  { session_id := session
    timestamp_ms := loc.time.getD now_ms
    latitude := loc.latitude
    longitude := loc.longitude
    accuracy_m := loc.accuracy
    speed_mps := loc.speed
    bearing_deg := loc.bearing
    altitude_m := loc.altitude
    provider := loc.provider.getD "network"
    raw_provider := loc.provider_used.getD "network"
    source := loc.source.getD "once"
    reused := if reused then 1 else 0 }

/-- gps_logger.py line 19: `REUSE_MAX_AGE_SEC = 10`. -/
def REUSE_MAX_AGE_SEC : ℚ := 10

/-- The mutable state of the acquisition loop: the globals `LAST_LOC` and
`LAST_TIME` (none before the first success) and the local `missed` counter. -/
structure LoggerState where
  lastLoc : Option Loc
  lastTime : Option ℚ
  missed : ℕ

/-- One iteration of the body of `main`'s while loop after the acquisition
phase (gps_logger.py lines 102-115): `loc` is the acquisition result (some
on success, none when both getters raised), `now` the wall-clock second at
the cache update / reuse check and `now_ms` the epoch milliseconds used by
`to_row` for a dict without a "time" key.  Returns the new state and the
row written to the CSV in this cycle, if any. -/
def cycleStep (session : String) (st : LoggerState) (loc : Option Loc)
    (now : ℚ) (now_ms : ℤ) : LoggerState × Option Row :=
  match loc with
  | some l =>
      ({ lastLoc := some l, lastTime := some now, missed := 0 },
       some (to_row session now_ms l false))
  | none =>
      match st.lastLoc, st.lastTime with
      | some l, some t =>
          if now - t ≤ REUSE_MAX_AGE_SEC then
            (st, some (to_row session now_ms l true))
          else
            ({ st with missed := st.missed + 1 }, none)
      | _, _ => ({ st with missed := st.missed + 1 }, none)

/-- gps_logger.py lines 117-121: `sleep_for = INTERVAL - elapsed` followed by
`time.sleep(sleep_for)` guarded by `sleep_for > 0`; the returned value is the
duration actually slept. -/
def pace_sleep (interval elapsed : ℚ) : ℚ :=
  if interval - elapsed > 0 then interval - elapsed else 0

/-- How the external termux-location subprocess behaves on one invocation:
how long it takes to finish, its exit code and its stdout/stderr text. -/
structure ProcRun where
  duration : ℚ
  rc : ℤ
  out : String
  err : String

/-- The pair returned by `run_cmd` plus whether `p.kill()` was invoked. -/
structure RunResult where
  out : Option String
  err : String
  killed : Bool

/-- gps_logger.py `run_cmd` (lines 21-29): `communicate(timeout=timeout)`
raises `TimeoutExpired` when the process outlives the timeout, in which case
the process is killed and `(None, "timeout")` is returned; otherwise stdout
is kept only on a zero exit code and the second component is the stripped
stderr, or `rc=<code>` when stderr is empty. -/
def runCmd (timeout : ℚ) (p : ProcRun) : RunResult :=
  if p.duration > timeout then
    { out := none, err := "timeout", killed := true }
  else
    { out := if p.rc = 0 then some p.out else none
      err := if p.err = "" then "rc=" ++ toString p.rc else p.err.trim
      killed := false }

/-- gps_logger.py `get_network_once` (lines 31-41): runs
`termux-location -p network -r once` under the given timeout; raises (here:
returns `.error`) when stdout is missing or empty, when `json.loads` fails
(`parseJson` returns none) or when the decoded object lacks latitude or
longitude; on success returns the dict with `_provider_used = "network"` and
`_source = "once"` added.  `parseJson` stands for `json.loads`. -/
def get_network_once (parseJson : String → Option Loc) (timeout : ℚ)
    (p : ProcRun) : Except String Loc :=
  match (runCmd timeout p).out with
  | none => .error ("network once failed: " ++ (runCmd timeout p).err)
  | some out =>
      if out = "" then .error ("network once failed: " ++ (runCmd timeout p).err)
      else
        match parseJson out with
        | none => .error "json decode error"
        | some loc =>
            if loc.latitude.isSome && loc.longitude.isSome then
              .ok { loc with provider_used := some "network", source := some "once" }
            else .error "network once: no lat/lon"

/-- gps_logger.py `get_last` (lines 43-53): runs `termux-location -r last`
(no provider constraint); same failure conditions as `get_network_once`, and
on success keeps whatever provider the device reports
(`loc.get("provider","network")`) as `_provider_used`, with `_source =
"last"`. -/
def get_last (parseJson : String → Option Loc) (timeout : ℚ)
    (p : ProcRun) : Except String Loc :=
  match (runCmd timeout p).out with
  | none => .error ("last failed: " ++ (runCmd timeout p).err)
  | some out =>
      if out = "" then .error ("last failed: " ++ (runCmd timeout p).err)
      else
        match parseJson out with
        | none => .error "json decode error"
        | some loc =>
            if loc.latitude.isSome && loc.longitude.isSome then
              .ok { loc with provider_used := some (loc.provider.getD "network")
                             source := some "last" }
            else .error "last: no lat/lon"

/-- The timeout main passes to `get_network_once` (gps_logger.py line 93). -/
def NETWORK_ONCE_TIMEOUT : ℚ := 8

/-- The timeout main passes to `get_last` (gps_logger.py line 97). -/
def LAST_TIMEOUT : ℚ := 3

/-- The acquisition phase of one loop iteration (gps_logger.py lines 91-100):
try `get_network_once(timeout=8)`, on any exception fall back to
`get_last(timeout=3)`, and when both raise produce no fix and print the two
exception messages.  The second component is that printed pair of
per-provider reasons, none when some attempt succeeded. -/
def try_fix (parseJson : String → Option Loc) (p1 p2 : ProcRun) :
    Option Loc × Option (String × String) :=
  match get_network_once parseJson NETWORK_ONCE_TIMEOUT p1 with
  | .ok l => (some l, none)
  | .error e1 =>
      match get_last parseJson LAST_TIMEOUT p2 with
      | .ok l => (some l, none)
      | .error e2 => (none, some (e1, e2))

/-- One normalized station document as built by `bikes_fetch_normalize`
(live_gps_logger.py lines 148-161); the constant `source_type = "open_data"`
key is not modelled. -/
structure Station where
  station_id : Option ℤ
  name : Option String
  lat : Option ℝ
  lon : Option ℝ
  available_bikes : Option ℤ
  available_stands : Option ℤ
  status : Option String
  last_update_ms : Option ℤ
  timestamp_ms : ℤ

/-- One raw JCDecaux station object as decoded from the feed's JSON array. -/
structure RawStation where
  number : Option ℤ
  name : Option String
  pos_lat : Option ℝ
  pos_lng : Option ℝ
  available_bikes : Option ℤ
  available_bike_stands : Option ℤ
  status : Option String
  last_update : Option ℤ

/-- The per-element normalization inside `bikes_fetch_normalize`'s loop
(live_gps_logger.py lines 148-161). -/
def normalize_station (now_ms : ℤ) (s : RawStation) : Station :=
  { station_id := s.number
    name := s.name
    lat := s.pos_lat
    lon := s.pos_lng
    available_bikes := s.available_bikes
    available_stands := s.available_bike_stands
    status := s.status
    last_update_ms := s.last_update
    timestamp_ms := now_ms }

/-- live_gps_logger.py `bikes_fetch_normalize` (lines 140-162): with no API
key configured it returns `[]` without fetching; otherwise the HTTP fetch
either raises (`resp = .error`, the exception propagating to the poller) or
yields the raw array, each element of which is normalized. -/
def bikes_fetch_normalize (jc_key : Option String) (now_ms : ℤ)
    (resp : Except String (List RawStation)) : Except String (List Station) :=
  match jc_key with
  | none => .ok []
  | some _ =>
      match resp with
      | .error e => .error e
      | .ok arr => .ok (arr.map (normalize_station now_ms))

/-- One iteration of `bikes_poller`'s while loop (live_gps_logger.py lines
166-181), given the current `LATEST_STATIONS` snapshot and the outcome of
`bikes_fetch_normalize`: on an exception the snapshot is kept and nothing is
posted; on a nonempty result each doc is posted to Firebase and the snapshot
is replaced; an empty result (`if docs:` false) posts nothing and keeps the
snapshot.  Returns the new snapshot and the list of docs handed to
`post_bike_item`. -/
def bikes_poller_cycle (snapshot : List Station)
    (fetched : Except String (List Station)) : List Station × List Station :=
  match fetched with
  | .error _ => (snapshot, [])
  | .ok [] => (snapshot, [])
  | .ok (d :: ds) => (d :: ds, d :: ds)

/-- python `math.radians`. -/
noncomputable def radians (x : ℝ) : ℝ := x * Real.pi / 180

/-- live_gps_logger.py `haversine_m` (lines 132-138), over exact reals:
mean Earth radius 6371000 m, `math.asin` read as `Real.arcsin`. -/
noncomputable def haversine_m (lat1 lon1 lat2 lon2 : ℝ) : ℝ :=
  let R : ℝ := 6371000.0
  let phi1 := radians lat1
  let phi2 := radians lat2
  let dphi := radians (lat2 - lat1)
  let dlmb := radians (lon2 - lon1)
  let a := Real.sin (dphi / 2) ^ 2 +
    Real.cos phi1 * Real.cos phi2 * Real.sin (dlmb / 2) ^ 2
  2 * R * Real.arcsin (Real.sqrt a)

/-- The guard-plus-distance of `nearest_station_to`'s loop body
(live_gps_logger.py lines 188-191): none exactly when the station is skipped
for a missing coordinate, otherwise its haversine distance to the fix. -/
noncomputable def stationDist (lat lon : ℝ) (s : Station) : Option ℝ :=
  match s.lat, s.lon with
  | some a, some b => some (haversine_m lat lon a b)
  | _, _ => none

/-- One iteration of `nearest_station_to`'s for loop (lines 188-193), folding
the running best.  `none` models the initial `best = None, best_d = inf`
state; any finite distance satisfies `d < inf`, so the first station with
coordinates always replaces it. -/
noncomputable def nearestStep (lat lon : ℝ) (best : Option (Station × ℝ))
    (s : Station) : Option (Station × ℝ) :=
  match stationDist lat lon s with
  | none => best
  | some d =>
      match best with
      | none => some (s, d)
      | some (bs, bd) => if d < bd then some (s, d) else some (bs, bd)

/-- live_gps_logger.py `nearest_station_to` (lines 183-194), with the locked
copy of `LATEST_STATIONS` passed as `stations`.  The python return pair
`(best, best_d)` is rendered as `Option (Station × ℝ)`: `(None, inf)` becomes
`none`. -/
noncomputable def nearest_station_to (lat lon : ℝ) (stations : List Station) :
    Option (Station × ℝ) :=
  stations.foldl (nearestStep lat lon) none

/-- The haversine distance from a point to itself vanishes. -/
theorem haversine_self (lat lon : ℝ) : haversine_m lat lon lat lon = 0 := by
  simp [haversine_m, radians]

/-- A station missing a coordinate has no distance. -/
theorem stationDist_of_missing (lat lon : ℝ) (t : Station)
    (h : t.lat = none ∨ t.lon = none) : stationDist lat lon t = none := by
  rcases h with h | h
  · simp [stationDist, h]
  · rcases hl : t.lat with _ | a
    · simp [stationDist, hl]
    · simp [stationDist, hl, h]

/-- A station with a distance has both coordinates. -/
theorem stationDist_isSome (lat lon : ℝ) (t : Station) (d : ℝ)
    (h : stationDist lat lon t = some d) : t.lat.isSome ∧ t.lon.isSome := by
  rcases hl : t.lat with _ | a
  · simp [stationDist, hl] at h
  · rcases ho : t.lon with _ | b
    · simp [stationDist, hl, ho] at h
    · simp

/-- A station with both coordinates has its haversine distance. -/
theorem stationDist_of_coords (lat lon : ℝ) (t : Station) (a b : ℝ)
    (hla : t.lat = some a) (hlo : t.lon = some b) :
    stationDist lat lon t = some (haversine_m lat lon a b) := by
  simp [stationDist, hla, hlo]

/-- A coordinate-less station leaves the running best untouched. -/
theorem nearestStep_skip (lat lon : ℝ) (best : Option (Station × ℝ))
    (s : Station) (h : stationDist lat lon s = none) :
    nearestStep lat lon best s = best := by
  simp [nearestStep, h]

/-- The first station with coordinates replaces the initial `(None, inf)`. -/
theorem nearestStep_start (lat lon : ℝ) (s : Station) (d : ℝ)
    (h : stationDist lat lon s = some d) :
    nearestStep lat lon none s = some (s, d) := by
  simp [nearestStep, h]

/-- Against an existing best, a station with coordinates wins exactly on a
strictly smaller distance. -/
theorem nearestStep_update (lat lon : ℝ) (s bs : Station) (d bd : ℝ)
    (h : stationDist lat lon s = some d) :
    nearestStep lat lon (some (bs, bd)) s =
      if d < bd then some (s, d) else some (bs, bd) := by
  simp [nearestStep, h]

/-- Folding from an existing best never drops below `some`. -/
theorem foldl_nearestStep_isSome (lat lon : ℝ) (l : List Station) :
    ∀ p : Station × ℝ, (List.foldl (nearestStep lat lon) (some p) l).isSome := by
  induction l with
  | nil => intro p; rfl
  | cons s rest ih =>
      intro p
      rcases hd : stationDist lat lon s with _ | d
      · rw [List.foldl_cons, nearestStep_skip lat lon _ s hd]; exact ih p
      · rcases p with ⟨bs, bd⟩
        rw [List.foldl_cons, nearestStep_update lat lon s bs d bd hd]
        by_cases hlt : d < bd
        · rw [if_pos hlt]; exact ih (s, d)
        · rw [if_neg hlt]; exact ih (bs, bd)

/-- The final best distance never exceeds the distance it started from. -/
theorem foldl_nearestStep_le (lat lon : ℝ) (l : List Station) :
    ∀ (u : Station) (bd : ℝ) (s : Station) (d : ℝ),
      List.foldl (nearestStep lat lon) (some (u, bd)) l = some (s, d) → d ≤ bd := by
  induction l with
  | nil =>
      intro u bd s d h
      simp only [List.foldl_nil, Option.some.injEq, Prod.mk.injEq] at h
      exact le_of_eq h.2.symm
  | cons s0 rest ih =>
      intro u bd s d h
      rw [List.foldl_cons] at h
      rcases hd : stationDist lat lon s0 with _ | d0
      · rw [nearestStep_skip lat lon _ s0 hd] at h
        exact ih u bd s d h
      · rw [nearestStep_update lat lon s0 u d0 bd hd] at h
        by_cases hlt : d0 < bd
        · rw [if_pos hlt] at h
          exact le_trans (ih s0 d0 s d h) hlt.le
        · rw [if_neg hlt] at h
          exact ih u bd s d h

/-- The final best distance is a lower bound of every station distance seen. -/
theorem foldl_nearestStep_min (lat lon : ℝ) (l : List Station) :
    ∀ (acc : Option (Station × ℝ)) (s : Station) (d : ℝ),
      List.foldl (nearestStep lat lon) acc l = some (s, d) →
      ∀ t ∈ l, ∀ dt, stationDist lat lon t = some dt → d ≤ dt := by
  induction l with
  | nil => intro acc s d _ t ht; simp at ht
  | cons s0 rest ih =>
      intro acc s d h t ht dt hdt
      rw [List.foldl_cons] at h
      rcases List.mem_cons.mp ht with rfl | ht'
      · rcases acc with _ | ⟨bs, bd⟩
        · rw [nearestStep_start lat lon t dt hdt] at h
          exact foldl_nearestStep_le lat lon rest t dt s d h
        · rw [nearestStep_update lat lon t bs dt bd hdt] at h
          by_cases hlt : dt < bd
          · rw [if_pos hlt] at h
            exact foldl_nearestStep_le lat lon rest t dt s d h
          · rw [if_neg hlt] at h
            exact le_trans (foldl_nearestStep_le lat lon rest bs bd s d h)
              (not_lt.mp hlt)
      · exact ih (nearestStep lat lon acc s0) s d h t ht' dt hdt

/-- Starting from an existing best, the fold either keeps it or switches to a
listed station of strictly smaller distance that strictly beats every listed
station before it. -/
theorem foldl_nearestStep_first (lat lon : ℝ) (l : List Station) :
    ∀ (u : Station) (bd : ℝ) (s : Station) (d : ℝ),
      List.foldl (nearestStep lat lon) (some (u, bd)) l = some (s, d) →
      (s = u ∧ d = bd) ∨
      (d < bd ∧ ∃ pre post, l = pre ++ s :: post ∧
        stationDist lat lon s = some d ∧
        ∀ t ∈ pre, ∀ dt, stationDist lat lon t = some dt → d < dt) := by
  induction l with
  | nil =>
      intro u bd s d h
      simp only [List.foldl_nil, Option.some.injEq, Prod.mk.injEq] at h
      exact Or.inl ⟨h.1.symm, h.2.symm⟩
  | cons s0 rest ih =>
      intro u bd s d h
      rw [List.foldl_cons] at h
      rcases hd : stationDist lat lon s0 with _ | d0
      · rw [nearestStep_skip lat lon _ s0 hd] at h
        rcases ih u bd s d h with hkeep | ⟨hlt, pre, post, heq, hds, hpre⟩
        · exact Or.inl hkeep
        · refine Or.inr ⟨hlt, s0 :: pre, post, by rw [heq]; rfl, hds, ?_⟩
          intro t ht dt hdt
          rcases List.mem_cons.mp ht with rfl | ht'
          · rw [hd] at hdt; exact absurd hdt (by simp)
          · exact hpre t ht' dt hdt
      · rw [nearestStep_update lat lon s0 u d0 bd hd] at h
        by_cases hlt : d0 < bd
        · rw [if_pos hlt] at h
          rcases ih s0 d0 s d h with ⟨hs, hdd⟩ | ⟨hdd, pre, post, heq, hds, hpre⟩
          · subst hs; subst hdd
            exact Or.inr ⟨hlt, [], rest, rfl, hd, by intro t ht; simp at ht⟩
          · refine Or.inr ⟨lt_trans hdd hlt, s0 :: pre, post, by rw [heq]; rfl, hds, ?_⟩
            intro t ht dt hdt
            rcases List.mem_cons.mp ht with rfl | ht'
            · rw [hd] at hdt
              exact (Option.some.inj hdt) ▸ hdd
            · exact hpre t ht' dt hdt
        · rw [if_neg hlt] at h
          rcases ih u bd s d h with hkeep | ⟨hdd, pre, post, heq, hds, hpre⟩
          · exact Or.inl hkeep
          · refine Or.inr ⟨hdd, s0 :: pre, post, by rw [heq]; rfl, hds, ?_⟩
            intro t ht dt hdt
            rcases List.mem_cons.mp ht with rfl | ht'
            · rw [hd] at hdt
              exact (Option.some.inj hdt) ▸ lt_of_lt_of_le hdd (not_lt.mp hlt)
            · exact hpre t ht' dt hdt

/-- Starting from `(None, inf)`, a returned best is a listed station, carries
its own haversine distance, and strictly beats every listed station before
it (first minimum wins). -/
theorem foldl_nearestStep_none_first (lat lon : ℝ) (l : List Station) :
    ∀ (s : Station) (d : ℝ),
      List.foldl (nearestStep lat lon) none l = some (s, d) →
      ∃ pre post, l = pre ++ s :: post ∧ stationDist lat lon s = some d ∧
        ∀ t ∈ pre, ∀ dt, stationDist lat lon t = some dt → d < dt := by
  induction l with
  | nil => intro s d h; simp at h
  | cons s0 rest ih =>
      intro s d h
      rw [List.foldl_cons] at h
      rcases hd : stationDist lat lon s0 with _ | d0
      · rw [nearestStep_skip lat lon _ s0 hd] at h
        obtain ⟨pre, post, heq, hds, hpre⟩ := ih s d h
        refine ⟨s0 :: pre, post, by rw [heq]; rfl, hds, ?_⟩
        intro t ht dt hdt
        rcases List.mem_cons.mp ht with rfl | ht'
        · rw [hd] at hdt; exact absurd hdt (by simp)
        · exact hpre t ht' dt hdt
      · rw [nearestStep_start lat lon s0 d0 hd] at h
        rcases foldl_nearestStep_first lat lon rest s0 d0 s d h with
          ⟨hs, hdd⟩ | ⟨hdd, pre, post, heq, hds, hpre⟩
        · subst hs; subst hdd
          exact ⟨[], rest, rfl, hd, by intro t ht; simp at ht⟩
        · refine ⟨s0 :: pre, post, by rw [heq]; rfl, hds, ?_⟩
          intro t ht dt hdt
          rcases List.mem_cons.mp ht with rfl | ht'
          · rw [hd] at hdt
            exact (Option.some.inj hdt) ▸ hdd
          · exact hpre t ht' dt hdt

/-- When every listed station misses a coordinate the fold stays at none. -/
theorem foldl_nearestStep_all_missing (lat lon : ℝ) : ∀ (l : List Station),
    (∀ t ∈ l, stationDist lat lon t = none) →
    List.foldl (nearestStep lat lon) none l = none := by
  intro l
  induction l with
  | nil => intro _; rfl
  | cons s0 rest ih =>
      intro h
      rw [List.foldl_cons, nearestStep_skip lat lon _ s0 (h s0 (List.mem_cons_self _ _))]
      exact ih fun t ht => h t (List.mem_cons_of_mem _ ht)

/-- C1: in every cycle whose acquisition fails, a cached fix is emitted as a
reused record exactly when the cache holds a fix and the wall-clock time
elapsed since it was recorded is at most REUSE_MAX_AGE_SEC (10 s); in that
case the consecutive-miss counter is unchanged, and otherwise no record is
emitted and the counter increments by one. -/
theorem C1_reuse_or_gap (session : String) (st : LoggerState) (now : ℚ)
    (now_ms : ℤ) :
    ((∃ r, (cycleStep session st none now now_ms).2 = some r) ↔
      ∃ l t, st.lastLoc = some l ∧ st.lastTime = some t ∧
        now - t ≤ REUSE_MAX_AGE_SEC)
    ∧ (∀ l t, st.lastLoc = some l → st.lastTime = some t →
        now - t ≤ REUSE_MAX_AGE_SEC →
        (cycleStep session st none now now_ms).2 =
          some (to_row session now_ms l true)
        ∧ (cycleStep session st none now now_ms).1.missed = st.missed)
    ∧ ((cycleStep session st none now now_ms).2 = none →
        (cycleStep session st none now now_ms).1.missed = st.missed + 1) := by
  rcases hL : st.lastLoc with _ | l0
  · simp [cycleStep, hL]
  · rcases hT : st.lastTime with _ | t0
    · simp [cycleStep, hL, hT]
    · by_cases hle : now - t0 ≤ REUSE_MAX_AGE_SEC
      · simp [cycleStep, hL, hT, hle]
        linarith
      · simp [cycleStep, hL, hT, hle]
        push_neg at hle
        linarith

/-- C3 (amended): every record emitted by a failing cycle is a reused record,
and what predates the cycle's acquisition attempt by at most the reuse bound
is the wall-clock instant the cache was recorded — not the fix's
device-reported captured_at, which the reuse check never consults. -/
theorem C3_reused_within_cache_bound (session : String) (st : LoggerState)
    (now : ℚ) (now_ms : ℤ) (r : Row)
    (h : (cycleStep session st none now now_ms).2 = some r) :
    r.reused = 1 ∧ ∃ t, st.lastTime = some t ∧ now - t ≤ REUSE_MAX_AGE_SEC := by
  rcases hL : st.lastLoc with _ | l0
  · simp [cycleStep, hL] at h
  · rcases hT : st.lastTime with _ | t0
    · simp [cycleStep, hL, hT] at h
    · by_cases hle : now - t0 ≤ REUSE_MAX_AGE_SEC
      · simp [cycleStep, hL, hT, hle] at h
        exact ⟨by rw [← h]; rfl, t0, rfl, hle⟩
      · simp [cycleStep, hL, hT, hle] at h

/-- C4 (amended): a reused record carries the cached fix's content verbatim —
every coordinate, optional and provider column equals the corresponding
column of the record the original success emitted — and when the cached fix
carries a device "time" stamp both records reuse it verbatim; a cached fix
without one is instead stamped with each emission's own wall-clock time. -/
theorem C4_reused_content (session : String) (st : LoggerState) (l : Loc)
    (t : ℚ) (now : ℚ) (now_ms now_ms0 : ℤ)
    (hL : st.lastLoc = some l) (hT : st.lastTime = some t)
    (hle : now - t ≤ REUSE_MAX_AGE_SEC) :
    (cycleStep session st none now now_ms).2 = some (to_row session now_ms l true)
    ∧ (to_row session now_ms l true).latitude =
        (to_row session now_ms0 l false).latitude
    ∧ (to_row session now_ms l true).longitude =
        (to_row session now_ms0 l false).longitude
    ∧ (to_row session now_ms l true).accuracy_m =
        (to_row session now_ms0 l false).accuracy_m
    ∧ (to_row session now_ms l true).speed_mps =
        (to_row session now_ms0 l false).speed_mps
    ∧ (to_row session now_ms l true).bearing_deg =
        (to_row session now_ms0 l false).bearing_deg
    ∧ (to_row session now_ms l true).altitude_m =
        (to_row session now_ms0 l false).altitude_m
    ∧ (to_row session now_ms l true).provider =
        (to_row session now_ms0 l false).provider
    ∧ (to_row session now_ms l true).raw_provider =
        (to_row session now_ms0 l false).raw_provider
    ∧ (to_row session now_ms l true).source =
        (to_row session now_ms0 l false).source
    ∧ (∀ ts, l.time = some ts →
        (to_row session now_ms l true).timestamp_ms = ts
        ∧ (to_row session now_ms0 l false).timestamp_ms = ts) := by
  refine ⟨by simp [cycleStep, hL, hT, hle],
    rfl, rfl, rfl, rfl, rfl, rfl, rfl, rfl, rfl, ?_⟩
  intro ts hts
  constructor <;> simp [to_row, hts]

/-- C5: the pacing tail sleeps for exactly max(0, interval - elapsed), so a
cycle that took `elapsed ≤ interval` seconds starts the next cycle exactly
`interval` seconds after its own start rather than `interval + elapsed`. -/
theorem C5_pacing (interval elapsed start : ℚ) :
    pace_sleep interval elapsed = max 0 (interval - elapsed)
    ∧ (0 ≤ elapsed → elapsed ≤ interval →
        (start + elapsed) + pace_sleep interval elapsed = start + interval) := by
  constructor
  · rw [pace_sleep]
    split_ifs with h
    · exact (max_eq_right h.le).symm
    · exact (max_eq_left (by linarith)).symm
  · intro h0 h1
    rw [pace_sleep]
    split_ifs with h
    · ring
    · have heq : interval = elapsed := le_antisymm (by linarith) h1
      rw [heq]; ring

/-- C6: the nearest-point resolver returns nothing on an empty snapshot,
returns the single station at distance 0 when it coincides with the fix, and
in general returns a snapshot station carrying its haversine great-circle
distance (spherical earth, radius 6371000 m) to the fix, minimal over every
station of the snapshot with coordinates, with ties broken by iteration
order: every station listed before the winner is strictly farther. -/
theorem C6_nearest (lat lon : ℝ) (s : Station) (l : List Station)
    (s' : Station) (d : ℝ) :
    nearest_station_to lat lon [] = none
    ∧ (s.lat = some lat → s.lon = some lon →
        nearest_station_to lat lon [s] = some (s, 0))
    ∧ (nearest_station_to lat lon l = some (s', d) →
        (∃ pre post, l = pre ++ s' :: post ∧ stationDist lat lon s' = some d ∧
          ∀ t ∈ pre, ∀ dt, stationDist lat lon t = some dt → d < dt)
        ∧ (∀ t ∈ l, ∀ dt, stationDist lat lon t = some dt → d ≤ dt)) := by
  refine ⟨rfl, ?_, ?_⟩
  · intro hla hlo
    rw [nearest_station_to, List.foldl_cons,
      nearestStep_start lat lon s _ (stationDist_of_coords lat lon s lat lon hla hlo),
      List.foldl_nil, haversine_self]
  · intro h
    exact ⟨foldl_nearestStep_none_first lat lon l s' d h,
      foldl_nearestStep_min lat lon l none s' d h⟩

/-- C9: a failing cycle never mutates the continuity cache — a reuse emission
leaves the whole state unchanged and even a gap keeps the stored fix and its
recorded time — so the reuse window is measured from the original success and
does not slide on reuse: once the bound is exceeded, any later failing cycle
(at a time no earlier than this one) is again a gap and increments the miss
counter. -/
theorem C9_reuse_frame (session : String) (st : LoggerState)
    (now now' : ℚ) (now_ms now_ms' : ℤ) :
    (∀ r, (cycleStep session st none now now_ms).2 = some r →
        (cycleStep session st none now now_ms).1 = st)
    ∧ (cycleStep session st none now now_ms).1.lastLoc = st.lastLoc
    ∧ (cycleStep session st none now now_ms).1.lastTime = st.lastTime
    ∧ (∀ t, st.lastTime = some t → ¬ now - t ≤ REUSE_MAX_AGE_SEC → now ≤ now' →
        (cycleStep session
            ((cycleStep session st none now now_ms).1) none now' now_ms').2 = none
        ∧ (cycleStep session
            ((cycleStep session st none now now_ms).1) none now' now_ms').1.missed
          = st.missed + 2) := by
  rcases hL : st.lastLoc with _ | l0
  · refine ⟨by simp [cycleStep, hL], by simp [cycleStep, hL],
      by simp [cycleStep, hL], ?_⟩
    intro t hT hnl hmono
    simp [cycleStep, hL]
  · rcases hT : st.lastTime with _ | t0
    · refine ⟨by simp [cycleStep, hL, hT], by simp [cycleStep, hL, hT],
        by simp [cycleStep, hL, hT], ?_⟩
      intro t ht; simp [hT] at ht
    · by_cases hle : now - t0 ≤ REUSE_MAX_AGE_SEC
      · refine ⟨by simp [cycleStep, hL, hT, hle], by simp [cycleStep, hL, hT, hle],
          by simp [cycleStep, hL, hT, hle], ?_⟩
        intro t ht hnl
        cases ht
        exact absurd hle hnl
      · refine ⟨by simp [cycleStep, hL, hT, hle], by simp [cycleStep, hL, hT, hle],
          by simp [cycleStep, hL, hT, hle], ?_⟩
        intro t ht hnl hmono
        cases ht
        have hnl' : ¬ now' - t0 ≤ REUSE_MAX_AGE_SEC := fun hc =>
          hnl (le_trans (by linarith) hc)
        constructor
        · simp [cycleStep, hL, hT, hle, hnl']
        · simp [cycleStep, hL, hT, hle, hnl']

/-- C10: the nearest-point resolver skips any station missing a coordinate,
returns no station on a snapshot whose stations all lack coordinates, and any
station it returns has both coordinates present. -/
theorem C10_nearest_missing (lat lon : ℝ) (s : Station) (l : List Station)
    (s' : Station) (d : ℝ) :
    (s.lat = none ∨ s.lon = none →
      nearest_station_to lat lon (s :: l) = nearest_station_to lat lon l)
    ∧ ((∀ t ∈ l, t.lat = none ∨ t.lon = none) →
        nearest_station_to lat lon l = none)
    ∧ (nearest_station_to lat lon l = some (s', d) →
        s'.lat.isSome ∧ s'.lon.isSome) := by
  refine ⟨?_, ?_, ?_⟩
  · intro h
    rw [nearest_station_to, List.foldl_cons,
      nearestStep_skip lat lon _ s (stationDist_of_missing lat lon s h)]
    rfl
  · intro h
    exact foldl_nearestStep_all_missing lat lon l
      (fun t ht => stationDist_of_missing lat lon t (h t ht))
  · intro h
    obtain ⟨pre, post, heq, hds, hpre⟩ :=
      foldl_nearestStep_none_first lat lon l s' d h
    exact stationDist_isSome lat lon s' d hds

/-- C2 (amended): the acquisition strategy attempts exactly two providers in
a fixed priority order — the coarse network one-shot request (8 s timeout)
first, then the unconstrained last-known-fix fallback (3 s timeout) — it
short-circuits on the first success (the fallback's behaviour is then
irrelevant), and when both attempts fail it yields no fix together with the
pair of per-provider failure reasons. -/
theorem C2_strategy (parseJson : String → Option Loc) (p1 p2 p2' : ProcRun) :
    NETWORK_ONCE_TIMEOUT = 8 ∧ LAST_TIMEOUT = 3
    ∧ (∀ l, get_network_once parseJson NETWORK_ONCE_TIMEOUT p1 = .ok l →
        try_fix parseJson p1 p2 = (some l, none)
        ∧ try_fix parseJson p1 p2 = try_fix parseJson p1 p2')
    ∧ (∀ e1 l, get_network_once parseJson NETWORK_ONCE_TIMEOUT p1 = .error e1 →
        get_last parseJson LAST_TIMEOUT p2 = .ok l →
        try_fix parseJson p1 p2 = (some l, none))
    ∧ (∀ e1 e2, get_network_once parseJson NETWORK_ONCE_TIMEOUT p1 = .error e1 →
        get_last parseJson LAST_TIMEOUT p2 = .error e2 →
        try_fix parseJson p1 p2 = (none, some (e1, e2))) := by
  refine ⟨rfl, rfl, ?_, ?_, ?_⟩
  · intro l h
    constructor <;> simp [try_fix, h]
  · intro e1 l h1 h2
    simp [try_fix, h1, h2]
  · intro e1 e2 h1 h2
    simp [try_fix, h1, h2]

/-- C2 counterexample: the first-attempted provider is the fast/coarse
network request, yet it carries the strategy's longest timeout (8 s) while
the fallback gets only 3 s, so the claimed short-timeout-for-fast,
longer-timeout-for-slow assignment is false of the code (which also has no
distinct precise/slow second tier at all). -/
theorem C2_counterexample :
    NETWORK_ONCE_TIMEOUT = 8 ∧ LAST_TIMEOUT = 3 ∧
    ¬ NETWORK_ONCE_TIMEOUT < LAST_TIMEOUT := by
  refine ⟨rfl, rfl, ?_⟩
  rw [NETWORK_ONCE_TIMEOUT, LAST_TIMEOUT]
  norm_num

/-- C7: the provider gateway fails in exactly these cases — the external call
outlives its wall-clock timeout (and the process is then forcibly killed);
the process exits non-zero; the output is missing, empty or undecodable; or
the decoded object lacks latitude or longitude — and on success it returns
the fix decoded from the output, tagged with the requested provider and
source. -/
theorem C7_gateway (parseJson : String → Option Loc) (timeout : ℚ)
    (p : ProcRun) :
    ((∃ l, get_network_once parseJson timeout p = .ok l) ↔
      (p.duration ≤ timeout ∧ p.rc = 0 ∧ p.out ≠ "" ∧
        ∃ l0, parseJson p.out = some l0 ∧
          l0.latitude.isSome ∧ l0.longitude.isSome))
    ∧ (p.duration > timeout →
        runCmd timeout p = { out := none, err := "timeout", killed := true })
    ∧ (∀ l, get_network_once parseJson timeout p = .ok l →
        ∃ l0, parseJson p.out = some l0 ∧
          l = { l0 with provider_used := some "network", source := some "once" }) := by
  refine ⟨?_, fun h => by simp [runCmd, h], ?_⟩
  · by_cases hto : p.duration > timeout
    · constructor
      · rintro ⟨l, hl⟩
        simp [get_network_once, runCmd, hto] at hl
      · rintro ⟨hle, -⟩
        exact absurd hle (not_le.mpr hto)
    · by_cases hrc0 : p.rc = 0
      · by_cases hempty : p.out = ""
        · constructor
          · rintro ⟨l, hl⟩
            simp [get_network_once, runCmd, hto, hrc0, hempty] at hl
          · rintro ⟨-, -, hne, -⟩
            exact absurd hempty hne
        · rcases hp : parseJson p.out with _ | lp
          · constructor
            · rintro ⟨l, hl⟩
              simp [get_network_once, runCmd, hto, hrc0, hempty, hp] at hl
            · rintro ⟨-, -, -, l0, hp', -⟩
              exact Option.noConfusion hp'
          · by_cases hco : lp.latitude.isSome && lp.longitude.isSome
            · constructor
              · intro _
                refine ⟨not_lt.mp hto, hrc0, hempty, lp, rfl, ?_, ?_⟩
                · exact ((Bool.and_eq_true _ _).mp hco).1
                · exact ((Bool.and_eq_true _ _).mp hco).2
              · intro _
                exact ⟨{ lp with provider_used := some "network", source := some "once" },
                  by simp [get_network_once, runCmd, hto, hrc0, hempty, hp, hco]⟩
            · constructor
              · rintro ⟨l, hl⟩
                simp [get_network_once, runCmd, hto, hrc0, hempty, hp, hco] at hl
              · rintro ⟨-, -, -, l0, hp', h1, h2⟩
                cases hp'
                exact absurd (by simp [h1, h2]) hco
      · constructor
        · rintro ⟨l, hl⟩
          simp [get_network_once, runCmd, hto, hrc0] at hl
        · rintro ⟨-, hz, -⟩
          exact absurd hz hrc0
  · intro l hl
    by_cases hto : p.duration > timeout
    · simp [get_network_once, runCmd, hto] at hl
    · by_cases hrc0 : p.rc = 0
      · by_cases hempty : p.out = ""
        · simp [get_network_once, runCmd, hto, hrc0, hempty] at hl
        · rcases hp : parseJson p.out with _ | lp
          · simp [get_network_once, runCmd, hto, hrc0, hempty, hp] at hl
          · by_cases hco : lp.latitude.isSome && lp.longitude.isSome
            · simp [get_network_once, runCmd, hto, hrc0, hempty, hp, hco] at hl
              exact ⟨lp, rfl, hl.symm⟩
            · simp [get_network_once, runCmd, hto, hrc0, hempty, hp, hco] at hl
      · simp [get_network_once, runCmd, hto, hrc0] at hl

/-- C8 (amended): a poller cycle whose fetch raises leaves the snapshot
untouched and posts nothing; a successful fetch yielding a nonempty
normalized station set replaces the snapshot with exactly that set and hands
each entry to the remote sink; but a successful fetch yielding no stations
(in particular when no API key is configured, where no fetch happens at all)
also leaves the snapshot untouched and posts nothing.  With a key configured,
a successful fetch normalizes each raw station in order. -/
theorem C8_poller (snapshot : List Station) (e : String)
    (docs : List Station) (key : String) (now_ms : ℤ) (arr : List RawStation) :
    bikes_poller_cycle snapshot (.error e) = (snapshot, [])
    ∧ (docs ≠ [] → bikes_poller_cycle snapshot (.ok docs) = (docs, docs))
    ∧ bikes_poller_cycle snapshot (.ok []) = (snapshot, [])
    ∧ bikes_fetch_normalize (some key) now_ms (.ok arr) =
        .ok (arr.map (normalize_station now_ms))
    ∧ (∀ e2, bikes_fetch_normalize (some key) now_ms (.error e2) = .error e2)
    ∧ bikes_fetch_normalize none now_ms (.error e) = .ok [] := by
  refine ⟨rfl, ?_, rfl, rfl, fun e2 => rfl, rfl⟩
  intro hne
  cases docs with
  | nil => exact absurd rfl hne
  | cons d ds => rfl

/-- A concrete cached fix whose device capture time is epoch 0 ms, far older
than any reuse bound. -/
def locStale : Loc :=
  { latitude := none, longitude := none, accuracy := none, speed := none,
    bearing := none, altitude := none, time := some 0, provider := none,
    provider_used := some "network", source := some "once" }

/-- A logger state that cached `locStale` at wall-clock second 100. -/
def stStale : LoggerState :=
  { lastLoc := some locStale, lastTime := some 100, missed := 0 }

/-- A concrete cached fix whose JSON had no "time" key. -/
def locNoTime : Loc :=
  { latitude := none, longitude := none, accuracy := none, speed := none,
    bearing := none, altitude := none, time := none, provider := none,
    provider_used := some "network", source := some "once" }

/-- A concrete station document without coordinates. -/
def stEmptyCoords : Station :=
  { station_id := some 1, name := some "a", lat := none, lon := none,
    available_bikes := none, available_stands := none, status := none,
    last_update_ms := none, timestamp_ms := 0 }

/-- A concrete station document at latitude 1, longitude 2. -/
noncomputable def stAtFix : Station :=
  { station_id := some 7, name := some "w", lat := some 1, lon := some 2,
    available_bikes := some 3, available_stands := some 4,
    status := some "OPEN", last_update_ms := some 5, timestamp_ms := 6 }

/-- A termux-location invocation that outlives an 8 s timeout. -/
def procSlow : ProcRun := { duration := 9, rc := 0, out := "x", err := "" }

/-- A termux-location invocation that exits quickly with code 1. -/
def procFailed : ProcRun := { duration := 1, rc := 1, out := "", err := "boom" }

/-- C3 counterexample: at wall-clock second 105 (epoch 105000 ms) the failing
cycle reuses the fix recorded only 5 s earlier, yet the emitted reused
record's captured_at (its timestamp_ms, taken verbatim from the cached fix's
device "time" field, here epoch 0) predates the cycle's acquisition attempt
by 105000 ms — far more than the 10 s reuse bound.  The reuse check bounds
the cache's recording age, never the fix's captured_at. -/
theorem C3_counterexample :
    (cycleStep "s" stStale none 105 105000).2 =
      some (to_row "s" 105000 locStale true)
    ∧ (to_row "s" 105000 locStale true).reused = 1
    ∧ ¬ ((105000 : ℤ) - (to_row "s" 105000 locStale true).timestamp_ms ≤
          10 * 1000) := by
  refine ⟨?_, rfl, by decide⟩
  norm_num [cycleStep, stStale, REUSE_MAX_AGE_SEC]

/-- C4 counterexample: a fix without a device "time" key is cached after a
success at epoch 1000 ms (its record is stamped 1000); when the next cycle
fails at epoch 5000 ms and reuses it, the reused record is re-stamped with
the emission time 5000 rather than carrying the original record's 1000, so
the cached captured_at is not reused verbatim in this case. -/
theorem C4_counterexample :
    (cycleStep "s" { lastLoc := none, lastTime := none, missed := 0 }
        (some locNoTime) 1 1000).1 =
      { lastLoc := some locNoTime, lastTime := some 1, missed := 0 }
    ∧ (cycleStep "s" { lastLoc := none, lastTime := none, missed := 0 }
        (some locNoTime) 1 1000).2 = some (to_row "s" 1000 locNoTime false)
    ∧ (cycleStep "s" { lastLoc := some locNoTime, lastTime := some 1, missed := 0 }
        none 5 5000).2 = some (to_row "s" 5000 locNoTime true)
    ∧ (to_row "s" 1000 locNoTime false).timestamp_ms = 1000
    ∧ (to_row "s" 5000 locNoTime true).timestamp_ms = 5000
    ∧ (to_row "s" 5000 locNoTime true).timestamp_ms ≠
        (to_row "s" 1000 locNoTime false).timestamp_ms := by
  refine ⟨rfl, rfl, ?_, rfl, rfl, by decide⟩
  norm_num [cycleStep, REUSE_MAX_AGE_SEC]

/-- C8 counterexample: a cycle whose fetch succeeds with an empty station
set does not replace the nonempty snapshot with that fetched set — the
snapshot stays as it was. -/
theorem C8_counterexample :
    bikes_poller_cycle [stEmptyCoords] (.ok ([] : List Station)) =
      ([stEmptyCoords], [])
    ∧ ([stEmptyCoords] : List Station) ≠ [] := ⟨rfl, by simp⟩

/-- C1 witness: a concrete failing cycle 4 s after the cache was recorded
emits the cached fix as a reused record. -/
theorem C1_reuse_or_gap_witness :
    (cycleStep "s" { lastLoc := some locNoTime, lastTime := some 1, missed := 3 }
        none 5 5000).2 = some (to_row "s" 5000 locNoTime true) :=
  ((C1_reuse_or_gap "s"
      { lastLoc := some locNoTime, lastTime := some 1, missed := 3 } 5 5000).2.1
    locNoTime 1 rfl rfl (by norm_num [REUSE_MAX_AGE_SEC])).1

/-- C2 witness: with both concrete attempts failing, the strategy yields no
fix and the pair of per-provider reasons. -/
theorem C2_strategy_witness :
    try_fix (fun _ => none) procSlow procFailed =
      (none, some ("network once failed: " ++ "timeout",
        "last failed: " ++ "boom".trim)) :=
  (C2_strategy (fun _ => none) procSlow procFailed procFailed).2.2.2.2
    ("network once failed: " ++ "timeout") ("last failed: " ++ "boom".trim)
    (by norm_num [get_network_once, runCmd, NETWORK_ONCE_TIMEOUT, procSlow])
    (by norm_num [get_last, runCmd, LAST_TIMEOUT, procFailed]
        rw [if_neg (by decide)])

/-- C3 witness: the amended bound holds at the concrete reused emission of
the counterexample state. -/
theorem C3_reused_within_cache_bound_witness :
    (to_row "s" 105000 locStale true).reused = 1
    ∧ ∃ t, stStale.lastTime = some t ∧ (105 : ℚ) - t ≤ REUSE_MAX_AGE_SEC :=
  C3_reused_within_cache_bound "s" stStale 105 105000
    (to_row "s" 105000 locStale true)
    (by norm_num [cycleStep, stStale, REUSE_MAX_AGE_SEC])

/-- C4 witness: for a cached fix carrying device time 0, both the success
record and the reused record carry timestamp 0 verbatim. -/
theorem C4_reused_content_witness :
    (to_row "s" 105000 locStale true).timestamp_ms = 0
    ∧ (to_row "s" 99 locStale false).timestamp_ms = 0 :=
  (C4_reused_content "s" stStale locStale 100 105 105000 99 rfl rfl
    (by norm_num [REUSE_MAX_AGE_SEC])).2.2.2.2.2.2.2.2.2.2 0 rfl

/-- C5 witness: a cycle that spent 2/5 s acquiring at interval 1 s starts
the next cycle exactly 1 s after its own start. -/
theorem C5_pacing_witness :
    ((0 : ℚ) + 2/5) + pace_sleep 1 (2/5) = 0 + 1 :=
  (C5_pacing 1 (2/5) 0).2 (by norm_num) (by norm_num)

/-- C6 witness: a singleton snapshot whose station coincides with the fix
resolves to that station at distance 0. -/
theorem C6_nearest_witness :
    nearest_station_to 1 2 [stAtFix] = some (stAtFix, 0) :=
  (C6_nearest 1 2 stAtFix [] stAtFix 0).2.1 rfl rfl

/-- C7 witness: a 9 s run against an 8 s timeout is killed and reported as a
timeout failure. -/
theorem C7_gateway_witness :
    runCmd 8 procSlow = { out := none, err := "timeout", killed := true } :=
  (C7_gateway (fun _ => none) 8 procSlow).2.1 (by norm_num [procSlow])

/-- C8 witness: a successful nonempty fetch replaces the empty snapshot and
forwards the fetched station. -/
theorem C8_poller_witness :
    bikes_poller_cycle [] (.ok [stEmptyCoords]) =
      ([stEmptyCoords], [stEmptyCoords]) :=
  ((C8_poller [] "e" [stEmptyCoords] "k" 0 []).2.1) (by simp)

/-- C9 witness: with the cache recorded at second 1, failing cycles at
seconds 20 and 25 are both gaps and the miss counter rises by two. -/
theorem C9_reuse_frame_witness :
    (cycleStep "s"
        ((cycleStep "s" { lastLoc := some locStale, lastTime := some 1, missed := 0 }
            none 20 20000).1) none 25 25000).2 = none
    ∧ (cycleStep "s"
        ((cycleStep "s" { lastLoc := some locStale, lastTime := some 1, missed := 0 }
            none 20 20000).1) none 25 25000).1.missed = 0 + 2 :=
  (C9_reuse_frame "s" { lastLoc := some locStale, lastTime := some 1, missed := 0 }
      20 25 20000 25000).2.2.2 1 rfl
    (by norm_num [REUSE_MAX_AGE_SEC]) (by norm_num)

/-- C10 witness: a snapshot holding only a coordinate-less station resolves
to no station. -/
theorem C10_nearest_missing_witness :
    nearest_station_to 1 2 [stEmptyCoords] = none :=
  (C10_nearest_missing 1 2 stEmptyCoords [stEmptyCoords] stEmptyCoords 0).2.1
    (by intro t ht; rw [List.mem_singleton] at ht; subst ht; exact Or.inl rfl)
